import Mathlib

/-!
Shallow embedding of `src/index.js` of the looks-same repository
(fork `christofferqa/looks-same`).

Pixel colors, the option record, the tolerance handling, the comparator
construction, the row iterator and the diff-image builder are translated
directly from `src/index.js`.  The collaborators that live in `lib/`
(`lib/same-colors`, `lib/utils`, the antialiasing and caret comparator
classes) and the external `color-diff` package are not part of `src/`;
where a claim needs them they are modelled from the spec, each with a doc
comment saying so, or kept abstract (the CIEDE2000 distance is an
arbitrary function parameter, the wrapper comparators an abstract
interpretation parameter).

JavaScript numbers are modelled as `ℚ` (tolerances, distances) and `Nat`
or `Int` (coordinates, counters); thrown `TypeError`s as `Except String`;
the in-place mutation of the caller's option object by `prepareOpts` as
explicit state passing (the returned record is the state the caller's
object is left in).
-/

namespace LooksSame

/-- An RGB color as handed to the comparators: three 8-bit channels.
(The alpha value used by `setPixel` is carried separately, since it is
not part of comparison.) -/
structure Color where
  R : Nat
  G : Nat
  B : Nat
deriving DecidableEq, Repr

/-- Modelled from the spec: `lib/same-colors` is not under `src/`; the
spec says `exactMatch(c1, c2)` is "true iff all channels equal". -/
def areColorsSame (c1 c2 : Color) : Bool :=
  c1.R == c2.R && c1.G == c2.G && c1.B == c2.B

/-- Source line 14: `const JND = 2.3` (just noticeable difference). -/
def JND : ℚ := 23 / 10

/-- The raster-image collaborator contract: width, height and a pixel
lookup (`lib/png` is external; the engine treats it as an in-memory grid). -/
structure Png where
  width : Nat
  height : Nat
  getPixel : Nat → Nat → Color

/-- Source lines 63-74, `makeCIEDE2000Comparator`: exact match
short-circuits, otherwise the CIEDE2000 distance (here an abstract
function `dist`, since `color-diff` is an external collaborator) is
compared strictly against the tolerance. -/
def makeCIEDE2000Comparator (dist : Color → Color → ℚ) (tolerance : ℚ)
    (c1 c2 : Color) : Bool :=
  if areColorsSame c1 c2 then true
  else decide (dist c1 c2 < tolerance)

/-- The option object of the public operations.  `none` models an absent
(`undefined`) key; `scaleFactor` is the source's device-pixel-ratio
option passed to the caret comparator. -/
structure Opts where
  tolerance : Option ℚ := none
  strict : Bool := false
  ignoreAntialiasing : Option Bool := none
  ignoreCaret : Bool := false
  scaleFactor : ℚ := 1
deriving DecidableEq, Repr

/-- Message of the `TypeError` thrown at source line 188. -/
def strictToleranceMsg : String :=
  "Unable to use \"strict\" and \"tolerance\" options together"

/-- Source lines 182-192, `getToleranceFromOpts`: absent tolerance key
gives `JND`; a present tolerance together with `strict` throws a
`TypeError`; otherwise the given tolerance is returned unvalidated. -/
def getToleranceFromOpts (opts : Opts) : Except String ℚ :=
  match opts.tolerance with
  | none => .ok JND
  | some t =>
    if opts.strict then .error strictToleranceMsg
    else .ok t

/-- Source lines 194-200, `prepareOpts`: writes the resolved tolerance
into the option object and defaults `ignoreAntialiasing` to `true` when
it is undefined.  The source mutates the caller's object in place; the
returned record is the state that object is left in, and a thrown
`TypeError` propagates to the caller. -/
def prepareOpts (opts : Opts) : Except String Opts :=
  match getToleranceFromOpts opts with
  | .error e => .error e
  | .ok t =>
    let o := { opts with tolerance := some t }
    match o.ignoreAntialiasing with
    | none => .ok { o with ignoreAntialiasing := some true }
    | some _ => .ok o

/-- A diff bounding rectangle, as returned by `getDiffArea`. -/
structure Rect where
  left : Nat
  top : Nat
  width : Nat
  height : Nat
deriving DecidableEq, Repr

/-- Source lines 18-37, the internal `getDiffArea`: component-wise minima
and maxima of the coordinates, `width = right - left + 1`,
`height = bottom - top + 1`.  (`Math.min.apply` over the coordinate
arrays; callers guarantee the list is non-empty, so the `getD 0`
fallback for the empty list is unreachable.) -/
def getDiffArea (diffPixelsCoords : List (Nat × Nat)) : Rect :=
  let xs := diffPixelsCoords.map (fun c => c.1)
  let ys := diffPixelsCoords.map (fun c => c.2)
  let top := (ys.min?).getD 0
  let bottom := (ys.max?).getD 0
  let left := (xs.min?).getD 0
  let right := (xs.max?).getD 0
  { left := left, top := top, width := right - left + 1, height := bottom - top + 1 }

/-- The shape of a comparator value as built by the source: the two base
comparators and the two decorating wrappers (whose internals live in the
external `lib/antialiasing-comparator` and `lib/ignore-caret-comparator`
modules; only the construction order is recorded here).  The raster
references captured by the antialiasing wrapper are fixed per call and
elided. -/
inductive CompChain where
  | strictCmp : CompChain
  | ciede2000 : ℚ → CompChain
  | antialiasing : CompChain → CompChain
  | caret : CompChain → ℚ → CompChain
deriving DecidableEq, Repr

/-- Source lines 39-51, `createComparator`: strict or CIEDE2000 base,
wrapped by the antialiasing comparator when `opts.ignoreAntialiasing` is
truthy, then by the caret comparator when `opts.ignoreCaret` is truthy.
Its two call sites (lines 222 and 255) run `prepareOpts` first, so
`opts.tolerance` is always set there; `getD 0` stands for the otherwise
undefined tolerance. -/
def createComparator (opts : Opts) : CompChain :=
  let base : CompChain :=
    if opts.strict then .strictCmp else .ciede2000 (opts.tolerance.getD 0)
  let c1 : CompChain :=
    if opts.ignoreAntialiasing.getD false then .antialiasing base else base
  if opts.ignoreCaret then .caret c1 opts.scaleFactor else c1

/-- Source line 279: the comparator `createDiff` puts into `diffOptions`
is the bare base comparator (`opts.strict ? areColorsSame :
makeCIEDE2000Comparator(tolerance)`), where the tolerance comes from
`getToleranceFromOpts` at line 268. -/
def createDiffChain (opts : Opts) : Except String CompChain :=
  match getToleranceFromOpts opts with
  | .error e => .error e
  | .ok tolerance => .ok (if opts.strict then .strictCmp else .ciede2000 tolerance)

/-- Whether a built comparator value contains the antialiasing wrapper. -/
def CompChain.hasAntialiasing : CompChain → Bool
  | .antialiasing _ => true
  | .caret c _ => c.hasAntialiasing
  | _ => false

/-- Whether a built comparator value contains the caret wrapper. -/
def CompChain.hasCaret : CompChain → Bool
  | .caret _ _ => true
  | .antialiasing c => c.hasCaret
  | _ => false

/-- The base comparator at the bottom of a wrapper chain. -/
def CompChain.base : CompChain → CompChain
  | .antialiasing c => c.base
  | .caret c _ => c.base
  | c => c

/-- The output raster under construction: a partial grid of written
pixels, each a color plus the optional alpha passed to `setPixel`. -/
def Canvas : Type := Nat → Nat → Option (Color × Option Nat)

/-- The empty raster `png.empty(width, height)` starts with. -/
def Canvas.empty : Canvas := fun _ _ => none

/-- `result.setPixel(x, y, color[, alpha])`: later writes win. -/
def Canvas.setPixel (c : Canvas) (x y : Nat) (v : Color × Option Nat) : Canvas :=
  fun a b => if a = x && b = y then some v else c a b

/-- Source lines 76-97, `iterateRect`, as a pure recursion on fuel.  The
JavaScript `processRow` starts at `y = 0`, runs the per-pixel callback
for `x = 0 .. width-1`, computes `isLastRow = y >= height`, calls the
row-done callback, and recurses with `y + 1` until `isLastRow` — so rows
`0 .. height` inclusive are processed.  Fuel `height + 1` is exactly
enough and the fuel-0 branch is unreachable from `iterateRect`. -/
def iterateRectAux {S : Type} (width height : Nat)
    (callback : Nat → Nat → S → S) (rowDoneCallback : Nat → Bool → S → S) :
    Nat → Nat → S → S
  | 0, _, s => s
  | fuel + 1, y, s =>
    let s1 := (List.range width).foldl (fun st x => callback x y st) s
    let isLastRow := height ≤ y
    let s2 := rowDoneCallback y isLastRow s1
    if isLastRow then s2
    else iterateRectAux width height callback rowDoneCallback fuel (y + 1) s2

/-- The iteration driver: `processRow(0)` with enough fuel. -/
def iterateRect {S : Type} (width height : Nat)
    (callback : Nat → Nat → S → S) (rowDoneCallback : Nat → Bool → S → S)
    (s : S) : S :=
  iterateRectAux width height callback rowDoneCallback (height + 1) 0 s

/-- The pixel coordinates `iterateRect` hands to the per-pixel callback,
in order, obtained by instrumenting the iterator with a logging state. -/
def visitedPixels (width height : Nat) : List (Nat × Nat) :=
  iterateRect width height (fun x y l => l ++ [(x, y)]) (fun _ _ l => l) []

/-- The `diffOptions` record `buildDiffImage` receives (source lines
277-281): highlight color, composed comparator, optional
ignore-different-pixels predicate. -/
structure DiffOptions where
  highlightColor : Color
  comparator : Color → Color → Bool
  ignoreDifferentPixels : Option (Nat → Nat → Bool) := none

/-- The mutable state of `buildDiffImage` (source lines 105-112): the
output raster, the difference counter, the ignored-pixel flag and the
three sliding rows of difference flags.  A row is the list of `x`
positions flagged `true`, in increasing order (the scan visits each `x`
once, left to right). -/
structure DiffState where
  result : Canvas
  differences : Int
  pixelIgnored : Bool
  prevPrevRow : List Nat
  prevRow : List Nat
  currentRow : List Nat

/-- Membership test of a flag row at a possibly negative index: a
JavaScript sparse-array read `row[i] === true` with `i` out of range is
simply not `true`. -/
def rowHas (row : List Nat) (i : Int) : Bool :=
  if i < 0 then false else row.contains i.toNat

/-- Source lines 144-149: whether any of the 8 neighbors of column `x`
across the previous-previous, previous and current rows is flagged. -/
def hasNeighboorDiff (x : Nat) (prevPrevRow prevRow currentRow : List Nat) : Bool :=
  rowHas prevPrevRow ((x : Int) - 1) || rowHas prevPrevRow (x : Int) ||
      rowHas prevPrevRow ((x : Int) + 1) ||
    rowHas prevRow ((x : Int) - 1) || rowHas prevRow ((x : Int) + 1) ||
    rowHas currentRow ((x : Int) - 1) || rowHas currentRow (x : Int) ||
      rowHas currentRow ((x : Int) + 1)

/-- Source lines 141-157, `checkRow`: every flagged `x` of `prevRow`
with no flagged 8-neighbor is retracted — repainted at row `ry` with the
original `png1` color (alpha 100) and the difference counter
decremented.  The closure reads the row variables of the enclosing
scope, which `checkRow` never writes, hence the captured `s`-rows. -/
def checkRow (png1 : Png) (ry : Nat) (s : DiffState) : DiffState :=
  s.prevRow.foldl
    (fun st x =>
      if hasNeighboorDiff x s.prevPrevRow s.prevRow s.currentRow then st
      else
        { st with
          result := st.result.setPixel x ry (png1.getPixel x ry, some 100)
          differences := st.differences - 1 })
    s

/-- Source lines 139-167, the row-done callback: finalize row `y - 1`
(at `y = 0` this is the JavaScript `checkRow(-1)`, a no-op because
`prevRow` is still empty — the `Nat` clamp to `0` is harmless), rotate
the three rows, and on the last row also flush the new `prevRow`. -/
def rowDone (png1 : Png) (y : Nat) (isLastRow : Bool) (s : DiffState) : DiffState :=
  let s1 := checkRow png1 (y - 1) s
  let s2 :=
    { s1 with
      prevPrevRow := s1.prevRow
      prevRow := s1.currentRow
      currentRow := [] }
  if isLastRow then checkRow png1 y s2 else s2

/-- Source lines 114-137, the per-pixel callback of `buildDiffImage`:
out-of-bounds cells (beyond the smaller raster) are painted with the
highlight color and nothing else happens; in-bounds mismatches are
either ignored via the external predicate (original color, alpha 100,
`pixelIgnored` set) or painted highlight, counted, and flagged in the
current row; matches copy the first raster's color at alpha 100. -/
def pixelCallback (png1 png2 : Png) (options : DiffOptions)
    (x y : Nat) (s : DiffState) : DiffState :=
  let minWidth := min png1.width png2.width
  let minHeight := min png1.height png2.height
  if minWidth ≤ x || minHeight ≤ y then
    { s with result := s.result.setPixel x y (options.highlightColor, none) }
  else
    let color1 := png1.getPixel x y
    let color2 := png2.getPixel x y
    if options.comparator color1 color2 then
      { s with result := s.result.setPixel x y (color1, some 100) }
    else
      if (match options.ignoreDifferentPixels with
          | some ignore => ignore x y
          | none => false) then
        { s with
          pixelIgnored := true
          result := s.result.setPixel x y (color1, some 100) }
      else
        { s with
          currentRow := s.currentRow ++ [x]
          result := s.result.setPixel x y (options.highlightColor, none)
          differences := s.differences + 1 }

/-- What the completion callback of `buildDiffImage` receives (source
line 169): the finished raster, `differences === 0`, and the
ignored-pixel flag. -/
structure DiffResult where
  result : Canvas
  equal : Bool
  pixelIgnored : Bool

/-- Source lines 99-170, `buildDiffImage`: canvas of the element-wise
maximal dimensions, full iteration via `iterateRect`, then the
completion values. -/
def buildDiffImage (png1 png2 : Png) (options : DiffOptions) : DiffResult :=
  let width := max png1.width png2.width
  let height := max png1.height png2.height
  let s0 : DiffState :=
    { result := Canvas.empty, differences := 0, pixelIgnored := false
      prevPrevRow := [], prevRow := [], currentRow := [] }
  let s := iterateRect width height (pixelCallback png1 png2 options) (rowDone png1) s0
  { result := s.result, equal := s.differences == 0, pixelIgnored := s.pixelIgnored }

/-- All in-bounds coordinates of a `width × height` raster, row-major. -/
def allCoords (width height : Nat) : List (Nat × Nat) :=
  (List.range height).flatMap (fun y => (List.range width).map (fun x => (x, y)))

/-- Modelled from the spec: `lib/utils`' `getDiffPixelsCoords` is not
under `src/`.  Per the spec, the equality test "runs a short-circuiting
scan that stops at the first unresolved mismatch" (that is the
`stopOnFirstFail` flag at source line 224) while `diffArea` "scans fully
(no short-circuit — needed to find the true bounding box)"; the scan
collects the coordinates at which the composed comparator reports a
mismatch.  Callers only invoke it on same-size rasters. -/
def getDiffPixelsCoords (png1 png2 : Png) (comparator : Color → Color → Bool)
    (stopOnFirstFail : Bool) : List (Nat × Nat) :=
  let diffs := (allCoords png1.width png1.height).filter
    (fun c => !(comparator (png1.getPixel c.1 c.2) (png2.getPixel c.1 c.2)))
  if stopOnFirstFail then diffs.take 1 else diffs

/-- Source lines 218-226, the decision core of `looksSame`: unequal
dimensions answer `false` at once (the comparator is neither built nor
consulted); otherwise the short-circuiting scan runs and the answer is
`result.length === 0`. -/
def looksSameCore (comparator : Color → Color → Bool) (first second : Png) : Bool :=
  if first.width != second.width || first.height != second.height then false
  else (getDiffPixelsCoords first second comparator true).isEmpty

/-- Source lines 246-263, the decision core of `exports.getDiffArea`:
unequal dimensions answer the max-extent rectangle from the origin
without scanning; otherwise the full scan runs, an empty result answers
`null`, and a non-empty one the bounding box. -/
def getDiffAreaCore (comparator : Color → Color → Bool) (first second : Png) :
    Option Rect :=
  if first.width != second.width || first.height != second.height then
    some { left := 0, top := 0
           width := max first.width second.width
           height := max first.height second.height }
  else
    let r := getDiffPixelsCoords first second comparator false
    if r.isEmpty then none else some (getDiffArea r)

/-- Source lines 202-228, the `looksSame` export at option level:
`prepareOpts` runs synchronously on the caller's option object (throwing
on a strict/tolerance conflict before any image is read), the comparator
chain is built by `createComparator`, and the core decides.  The wrapper
semantics (`sem`) interprets a built chain as a color predicate; the
decoded image pair is a parameter, standing for `readPair`'s output.
The returned `Opts` is the state the caller's (mutated) object is left
in after the call. -/
def looksSameModel (sem : CompChain → Color → Color → Bool) (opts : Opts)
    (pair : Png × Png) : Except String (Bool × Opts) :=
  match prepareOpts opts with
  | .error e => .error e
  | .ok o => .ok (looksSameCore (sem (createComparator o)) pair.1 pair.2, o)

/-- Source lines 230-265, the `exports.getDiffArea` export at option
level, in the same shape as `looksSameModel`. -/
def getDiffAreaModel (sem : CompChain → Color → Color → Bool) (opts : Opts)
    (pair : Png × Png) : Except String (Option Rect × Opts) :=
  match prepareOpts opts with
  | .error e => .error e
  | .ok o => .ok (getDiffAreaCore (sem (createComparator o)) pair.1 pair.2, o)

/-- Source lines 267-297, `exports.createDiff` without the
ignore-different-pixels second pair: `getToleranceFromOpts` runs
synchronously (line 268) before the image pair is read, and the bare
base comparator of line 279 drives `buildDiffImage`. -/
def createDiffModel (dist : Color → Color → ℚ) (highlightColor : Color)
    (opts : Opts) (pair : Png × Png) : Except String DiffResult :=
  match getToleranceFromOpts opts with
  | .error e => .error e
  | .ok tolerance =>
    let diffOptions : DiffOptions :=
      { highlightColor := highlightColor
        comparator :=
          if opts.strict then areColorsSame else makeCIEDE2000Comparator dist tolerance
        ignoreDifferentPixels := none }
    .ok (buildDiffImage pair.1 pair.2 diffOptions)

/-- Source lines 335-345, `exports.colors`: the tolerance defaults to
`JND` when undefined and the CIEDE2000 comparator is applied directly —
no `strict` check, no raster, no exception. -/
def colorsModel (dist : Color → Color → ℚ) (color1 color2 : Color)
    (opts : Opts) : Bool :=
  let t := opts.tolerance.getD JND
  makeCIEDE2000Comparator dist t color1 color2

/-! Concrete rasters and options used to evaluate the embedding on the
inputs named by the spec's testable properties. -/

/-- A black pixel. -/
def blackC : Color := ⟨0, 0, 0⟩

/-- A red pixel. -/
def redC : Color := ⟨255, 0, 0⟩

/-- A highlight color. -/
def hlC : Color := ⟨250, 50, 50⟩

/-- Diff options with the exact-match base comparator and no external
ignore predicate. -/
def exDiffOptions : DiffOptions :=
  { highlightColor := hlC, comparator := areColorsSame }

/-- A 1×1 all-black raster. -/
def png1x1 : Png := ⟨1, 1, fun _ _ => blackC⟩

/-- A 2×1 all-black raster. -/
def png2x1 : Png := ⟨2, 1, fun _ _ => blackC⟩

/-- A 2×1 all-red raster. -/
def png2x1red : Png := ⟨2, 1, fun _ _ => redC⟩

/-- A 3×3 all-black raster. -/
def png3x3 : Png := ⟨3, 3, fun _ _ => blackC⟩

/-- A 3×3 raster that is black except for a red center pixel, giving a
single isolated mismatch against `png3x3`. -/
def png3x3center : Png :=
  ⟨3, 3, fun x y => if x = 1 && y = 1 then redC else blackC⟩

/-- Options with `ignoreAntialiasing` enabled and a tolerance, as
`looksSame` leaves them after `prepareOpts`. -/
def exOptsAA : Opts :=
  { tolerance := some JND, strict := false, ignoreAntialiasing := some true
    ignoreCaret := false, scaleFactor := 1 }

/-! Helper lemmas. -/

theorem foldl_append_map {α β : Type} (f : α → β) :
    ∀ (xs : List α) (l0 : List β),
      xs.foldl (fun l x => l ++ [f x]) l0 = l0 ++ xs.map f := by
  intro xs
  induction xs with
  | nil => intro l0; simp
  | cons a xs ih => intro l0; simp [ih]

theorem iterateRectAux_log (w h : Nat) :
    ∀ (fuel y : Nat) (l : List (Nat × Nat)), y + fuel = h + 1 →
      iterateRectAux w h (fun x y' acc => acc ++ [(x, y')]) (fun _ _ acc => acc)
          fuel y l
        = l ++ ((List.range' y fuel).map
            (fun y' => (List.range w).map (fun x => (x, y')))).flatten := by
  intro fuel
  induction fuel with
  | zero => intro y l _; simp [iterateRectAux]
  | succ fuel ih =>
    intro y l hy
    have hfold : ∀ (l1 : List (Nat × Nat)),
        (List.range w).foldl (fun st x => st ++ [(x, y)]) l1
          = l1 ++ (List.range w).map (fun x => (x, y)) :=
      fun l1 => foldl_append_map _ _ l1
    by_cases hlast : h ≤ y
    · have hfuel : fuel = 0 := by omega
      have hyh : y = h := by omega
      subst hfuel
      simp [iterateRectAux, hfold, hlast, List.range'_succ]
    · have hrec : (y + 1) + fuel = h + 1 := by omega
      simp only [iterateRectAux, hfold, hlast, if_false, List.range'_succ]
      rw [ih (y + 1) _ hrec]
      simp

theorem visitedPixels_eq (w h : Nat) :
    visitedPixels w h
      = ((List.range (h + 1)).map
          (fun y => (List.range w).map (fun x => (x, y)))).flatten := by
  unfold visitedPixels iterateRect
  rw [iterateRectAux_log w h (h + 1) 0 [] (by omega)]
  simp [List.range_eq_range']

theorem mem_visitedPixels (w h x y : Nat) :
    (x, y) ∈ visitedPixels w h ↔ x < w ∧ y ≤ h := by
  rw [visitedPixels_eq]
  simp [List.mem_flatten, Nat.lt_succ_iff]
  constructor
  · rintro ⟨y', hy', a, ha, rfl, rfl⟩
    exact ⟨ha, hy'⟩
  · rintro ⟨hx, hy⟩
    exact ⟨y, hy, x, hx, rfl, rfl⟩

theorem mem_allCoords (w h x y : Nat) :
    (x, y) ∈ allCoords w h ↔ x < w ∧ y < h := by
  unfold allCoords
  simp [List.mem_flatMap]
  constructor
  · rintro ⟨y', hy', a, ha, rfl, rfl⟩
    exact ⟨ha, hy'⟩
  · rintro ⟨hx, hy⟩
    exact ⟨y, hy, x, hx, rfl, rfl⟩

theorem pixelCallback_oob (png1 png2 : Png) (o : DiffOptions) (x y : Nat)
    (s : DiffState)
    (h : min png1.width png2.width ≤ x ∨ min png1.height png2.height ≤ y) :
    pixelCallback png1 png2 o x y s
      = { s with result := s.result.setPixel x y (o.highlightColor, none) } := by
  rcases h with h | h <;> simp [pixelCallback, h]

theorem areColorsSame_iff (c1 c2 : Color) :
    areColorsSame c1 c2 = true ↔ c1 = c2 := by
  cases c1; cases c2
  simp [areColorsSame, Color.mk.injEq, and_assoc]

theorem foldl_retract_differences (png1 : Png) (ry : Nat) (pred : Nat → Bool) :
    ∀ (l : List Nat) (st : DiffState),
      ((l.foldl
        (fun st x =>
          if pred x then st
          else
            { st with
              result := st.result.setPixel x ry (png1.getPixel x ry, some 100)
              differences := st.differences - 1 })
        st).differences)
        = st.differences - ((l.filter (fun x => !pred x)).length : Int) := by
  intro l
  induction l with
  | nil => intro st; simp
  | cons a l ih =>
    intro st
    cases hp : pred a <;>
      · simp only [List.foldl_cons, hp, List.filter_cons]
        simp [ih]
        try omega

/-- Retraction count of a full `checkRow` pass: the difference counter
drops by exactly the number of flagged positions of `prevRow` that have
no flagged 8-neighbor. -/
theorem checkRow_differences (png1 : Png) (ry : Nat) (s : DiffState) :
    (checkRow png1 ry s).differences
      = s.differences
        - ((s.prevRow.filter
            (fun x => !hasNeighboorDiff x s.prevPrevRow s.prevRow s.currentRow)).length
          : Int) := by
  exact foldl_retract_differences png1 ry
    (fun x => hasNeighboorDiff x s.prevPrevRow s.prevRow s.currentRow) s.prevRow s

/-! Claims. -/

/-- C2: in `buildDiffImage` on same-size inputs a flagged pixel is
retracted exactly when none of its 8 neighbors across the previous,
same and next row is flagged (the counter drops by the number of
isolated flagged pixels of the finalized row); a single isolated
mismatching center pixel of a 3×3 canvas yields difference count 0
(`equal = true`) and is rendered with its original color at alpha 100,
while both pixels of a 2×1 block of adjacent mismatching pixels are
retained as highlighted differences (`equal = false`). -/
theorem c2_noise_suppression :
    (∀ (png1 : Png) (ry : Nat) (s : DiffState),
        (checkRow png1 ry s).differences
          = s.differences
            - ((s.prevRow.filter
                (fun x =>
                  !hasNeighboorDiff x s.prevPrevRow s.prevRow s.currentRow)).length
              : Int))
    ∧ ((buildDiffImage png3x3 png3x3center exDiffOptions).equal = true
        ∧ (buildDiffImage png3x3 png3x3center exDiffOptions).result 1 1
            = some (blackC, some 100))
    ∧ ((buildDiffImage png2x1 png2x1red exDiffOptions).equal = false
        ∧ (buildDiffImage png2x1 png2x1red exDiffOptions).result 0 0
            = some (hlC, none)
        ∧ (buildDiffImage png2x1 png2x1red exDiffOptions).result 1 0
            = some (hlC, none)) :=
  ⟨checkRow_differences, by constructor <;> decide, by
    refine ⟨?_, ?_, ?_⟩ <;> decide⟩

/-- C9: `iterateRect` invokes the per-pixel callback exactly at the
coordinates with `0 ≤ x < w` and `0 ≤ y ≤ h` — one row more than the
canvas has — and at row `y = max(height1, height2)` (one past the last
valid output row) the per-pixel step of `buildDiffImage` always takes
the out-of-bounds highlight branch, leaving the difference counter, the
row flags and the ignored flag untouched. -/
theorem c9_extra_row :
    (∀ (w h x y : Nat), (x, y) ∈ visitedPixels w h ↔ x < w ∧ y ≤ h)
    ∧ (∀ (png1 png2 : Png) (o : DiffOptions) (x : Nat) (s : DiffState),
        pixelCallback png1 png2 o x (max png1.height png2.height) s
          = { s with
              result := s.result.setPixel x (max png1.height png2.height)
                (o.highlightColor, none) }) :=
  ⟨mem_visitedPixels, fun png1 png2 o x s =>
    pixelCallback_oob png1 png2 o x _ s (Or.inr (min_le_max))⟩

/-- C1 counterexample: a 1×1 raster against a 2×1 raster whose shared
pixel matches.  The out-of-bounds cell (1,0) is painted with the
highlight color, yet the difference counter stays 0 and the completion
callback reports `equal = true` although the widths differ — refuting
the claim that a size mismatch always makes the callback report
non-zero differences. -/
theorem c1_counterexample :
    png1x1.width ≠ png2x1.width
      ∧ (buildDiffImage png1x1 png2x1 exDiffOptions).equal = true
      ∧ (buildDiffImage png1x1 png2x1 exDiffOptions).result 1 0
          = some (hlC, none) := by
  refine ⟨?_, ?_, ?_⟩ <;> decide

/-- C1 (amended): in `buildDiffImage`, every cell whose coordinate lies
outside the smaller raster's bounds is painted with the highlight color
but is NOT counted as a difference — the per-pixel step leaves the
difference counter, the row flags and the ignored flag unchanged — so
the completion callback reports `equal = true` whenever all in-bounds
pixels match, even when the two dimensions differ. -/
theorem c1_out_of_bounds_not_counted (png1 png2 : Png) (o : DiffOptions)
    (x y : Nat) (s : DiffState)
    (h : min png1.width png2.width ≤ x ∨ min png1.height png2.height ≤ y) :
    pixelCallback png1 png2 o x y s
      = { s with result := s.result.setPixel x y (o.highlightColor, none) } :=
  pixelCallback_oob png1 png2 o x y s h

/-- C1 witness: the out-of-bounds step at pixel (1,0) of the
1×1-versus-2×1 comparison. -/
theorem c1_witness :
    (min png1x1.width png2x1.width ≤ 1 ∨ min png1x1.height png2x1.height ≤ 0)
      ∧ pixelCallback png1x1 png2x1 exDiffOptions 1 0
          { result := Canvas.empty, differences := 0, pixelIgnored := false
            prevPrevRow := [], prevRow := [], currentRow := [] }
        = { result := Canvas.empty.setPixel 1 0 (exDiffOptions.highlightColor, none)
            differences := 0, pixelIgnored := false
            prevPrevRow := [], prevRow := [], currentRow := [] } :=
  ⟨Or.inl (by decide),
    c1_out_of_bounds_not_counted png1x1 png2x1 exDiffOptions 1 0 _
      (Or.inl (by decide))⟩

/-- C3 counterexample: `exports.colors` with both `strict:true` and a
tolerance raises nothing — it returns `true`, having silently used the
perceptual (tolerance) mode even though the two colors are not exactly
equal, so the strict mode would have answered `false`. -/
theorem c3_counterexample :
    colorsModel (fun _ _ => 1) ⟨0, 0, 0⟩ ⟨10, 0, 0⟩ ⟨some 5, true, none, false, 1⟩
        = true
      ∧ areColorsSame ⟨0, 0, 0⟩ ⟨10, 0, 0⟩ = false := by
  constructor <;> decide

/-- C3 (amended): `looksSame`, `getDiffArea` and `createDiff` throw the
strict/tolerance `TypeError` synchronously — the error is produced for
every image pair and every wrapper semantics, i.e. before any image is
consulted — but `exports.colors` performs no such check: it always
applies the perceptual comparator with the supplied tolerance,
silently ignoring `strict`. -/
theorem c3_strict_tolerance_conflict :
    (∀ (o : Opts) (t : ℚ), o.tolerance = some t → o.strict = true →
        (∀ (sem : CompChain → Color → Color → Bool) (pair : Png × Png),
            looksSameModel sem o pair = .error strictToleranceMsg)
          ∧ (∀ (sem : CompChain → Color → Color → Bool) (pair : Png × Png),
            getDiffAreaModel sem o pair = .error strictToleranceMsg)
          ∧ (∀ (dist : Color → Color → ℚ) (c : Color) (pair : Png × Png),
            createDiffModel dist c o pair = .error strictToleranceMsg))
    ∧ (∀ (dist : Color → Color → ℚ) (o : Opts) (t : ℚ) (c1 c2 : Color),
        o.tolerance = some t →
        colorsModel dist c1 c2 o = makeCIEDE2000Comparator dist t c1 c2) := by
  constructor
  · intro o t ht hs
    have herr : getToleranceFromOpts o = .error strictToleranceMsg := by
      simp [getToleranceFromOpts, ht, hs]
    refine ⟨fun sem pair => ?_, fun sem pair => ?_, fun dist c pair => ?_⟩
    · simp [looksSameModel, prepareOpts, herr]
    · simp [getDiffAreaModel, prepareOpts, herr]
    · simp [createDiffModel, herr]
  · intro dist o t c1 c2 ht
    simp [colorsModel, ht]

/-- C3 witness: the three raster operations at the conflicting options
throw, and `colors` uses the supplied tolerance. -/
theorem c3_witness :
    looksSameModel (fun _ _ _ => true) ⟨some 5, true, none, false, 1⟩
        (png1x1, png1x1) = .error strictToleranceMsg
      ∧ getDiffAreaModel (fun _ _ _ => true) ⟨some 5, true, none, false, 1⟩
        (png1x1, png1x1) = .error strictToleranceMsg
      ∧ createDiffModel (fun _ _ => 0) hlC ⟨some 5, true, none, false, 1⟩
        (png1x1, png1x1) = .error strictToleranceMsg
      ∧ colorsModel (fun _ _ => 1) blackC ⟨10, 0, 0⟩ ⟨some 5, true, none, false, 1⟩
        = makeCIEDE2000Comparator (fun _ _ => 1) 5 blackC ⟨10, 0, 0⟩ :=
  ⟨(c3_strict_tolerance_conflict.1 _ 5 rfl rfl).1 _ _,
   (c3_strict_tolerance_conflict.1 _ 5 rfl rfl).2.1 _ _,
   (c3_strict_tolerance_conflict.1 _ 5 rfl rfl).2.2 _ _ _,
   c3_strict_tolerance_conflict.2 _ _ 5 _ _ rfl⟩

/-- C4 counterexample: a negative tolerance is accepted without any
error — `getToleranceFromOpts` returns it as-is and `looksSame` runs to
completion on it instead of surfacing a configuration error. -/
theorem c4_counterexample :
    getToleranceFromOpts ⟨some (-1), false, none, false, 1⟩ = .ok (-1)
      ∧ looksSameModel (fun _ _ _ => true) ⟨some (-1), false, none, false, 1⟩
          (png1x1, png1x1)
        = .ok (true, ⟨some (-1), false, some true, false, 1⟩) := by
  constructor <;> rfl

/-- C4 (amended): no tolerance validation exists — every tolerance
value, negative ones included, is returned unchanged by
`getToleranceFromOpts` (no error is raised at any point), and a
comparator built with a negative tolerance simply degenerates to exact
matching whenever the distance function is non-negative. -/
theorem c4_no_negative_validation :
    (∀ t : ℚ, getToleranceFromOpts ⟨some t, false, none, false, 1⟩ = .ok t)
    ∧ (∀ (dist : Color → Color → ℚ) (t : ℚ) (c1 c2 : Color),
        t < 0 → 0 ≤ dist c1 c2 →
        makeCIEDE2000Comparator dist t c1 c2 = areColorsSame c1 c2) := by
  constructor
  · intro t; rfl
  · intro dist t c1 c2 ht hd
    unfold makeCIEDE2000Comparator
    cases h : areColorsSame c1 c2
    · simp [h]
      linarith
    · simp [h]

/-- C4 witness: the degenerate comparator at tolerance `-1` and a
distance function constantly `5`. -/
theorem c4_witness :
    ((-1 : ℚ) < 0 ∧ (0 : ℚ) ≤ (fun (_ _ : Color) => (5 : ℚ)) blackC redC)
      ∧ makeCIEDE2000Comparator (fun _ _ => 5) (-1) blackC redC
        = areColorsSame blackC redC :=
  ⟨⟨by norm_num, by norm_num⟩,
   c4_no_negative_validation.2 (fun _ _ => 5) (-1) blackC redC (by norm_num)
     (by norm_num)⟩

/-- C5 counterexample: with `ignoreAntialiasing` enabled, `createDiff`
still builds only the bare perceptual base comparator (source line 279)
— no antialiasing wrapper — while `createComparator` (used by
`looksSame`/`getDiffArea`) wraps it, refuting that every raster-scanning
operation builds the base → antialiasing → caret chain. -/
theorem c5_counterexample :
    exOptsAA.ignoreAntialiasing = some true
      ∧ createDiffChain exOptsAA = .ok (CompChain.ciede2000 JND)
      ∧ (CompChain.ciede2000 JND).hasAntialiasing = false
      ∧ createComparator exOptsAA = CompChain.antialiasing (CompChain.ciede2000 JND) :=
  ⟨rfl, rfl, rfl, rfl⟩

/-- C5 (amended): `createComparator` — used by `looksSame` and
`getDiffArea` — builds the chain in the fixed order base comparator
(exact when `strict`, perceptual otherwise) → antialiasing wrapper
(present exactly when `ignoreAntialiasing` is truthy) → caret wrapper
(present exactly when `ignoreCaret` is truthy, outermost); `createDiff`
instead uses only the base comparator and never applies either
wrapper. -/
theorem c5_comparator_chain :
    (∀ o : Opts,
        (createComparator o).hasAntialiasing = o.ignoreAntialiasing.getD false)
    ∧ (∀ o : Opts, (createComparator o).hasCaret = o.ignoreCaret)
    ∧ (∀ o : Opts,
        (createComparator o).base
          = if o.strict then CompChain.strictCmp
            else CompChain.ciede2000 (o.tolerance.getD 0))
    ∧ (∀ o : Opts, o.ignoreAntialiasing = some true → o.ignoreCaret = true →
        createComparator o
          = CompChain.caret
              (CompChain.antialiasing
                (if o.strict then CompChain.strictCmp
                 else CompChain.ciede2000 (o.tolerance.getD 0)))
              o.scaleFactor)
    ∧ (∀ (o : Opts) (c : CompChain), createDiffChain o = .ok c →
        c.hasAntialiasing = false ∧ c.hasCaret = false) := by
  refine ⟨?_, ?_, ?_, ?_, ?_⟩
  · intro o
    unfold createComparator
    cases haa : o.ignoreAntialiasing.getD false <;> cases hic : o.ignoreCaret <;>
      cases hst : o.strict <;>
        simp [haa, hic, hst, CompChain.hasAntialiasing]
  · intro o
    unfold createComparator
    cases haa : o.ignoreAntialiasing.getD false <;> cases hic : o.ignoreCaret <;>
      cases hst : o.strict <;>
        simp [haa, hic, hst, CompChain.hasCaret]
  · intro o
    unfold createComparator
    cases haa : o.ignoreAntialiasing.getD false <;> cases hic : o.ignoreCaret <;>
      cases hst : o.strict <;>
        simp [haa, hic, hst, CompChain.base]
  · intro o haa hic
    unfold createComparator
    simp [haa, hic]
  · intro o c h
    cases hg : getToleranceFromOpts o with
    | error e => simp [createDiffChain, hg] at h
    | ok t =>
      simp [createDiffChain, hg] at h
      cases hst : o.strict <;> simp [hst] at h <;> subst h <;>
        exact ⟨rfl, rfl⟩

/-- C5 witness: the fully-wrapped chain at concrete options, and the
wrapperless `createDiff` chain at `exOptsAA`. -/
theorem c5_witness :
    createComparator ⟨some JND, false, some true, true, 1⟩
        = CompChain.caret (CompChain.antialiasing (CompChain.ciede2000 JND)) 1
      ∧ ((CompChain.ciede2000 JND).hasAntialiasing = false
          ∧ (CompChain.ciede2000 JND).hasCaret = false) :=
  ⟨by
    have h := c5_comparator_chain.2.2.2.1 ⟨some JND, false, some true, true, 1⟩
      rfl rfl
    simpa using h,
   c5_comparator_chain.2.2.2.2 exOptsAA _ rfl⟩

/-- C8: the perceptual comparator answers `true` exactly when the two
colors are equal (all channels) or the distance is strictly below the
tolerance; hence for fixed differing colors at distance `d` it answers
`true` for every tolerance above `d` and `false` for every tolerance
below `d`. -/
theorem c8_perceptual_comparator :
    (∀ (dist : Color → Color → ℚ) (t : ℚ) (c1 c2 : Color),
        makeCIEDE2000Comparator dist t c1 c2 = true ↔ (c1 = c2 ∨ dist c1 c2 < t))
    ∧ (∀ (dist : Color → Color → ℚ) (c1 c2 : Color), c1 ≠ c2 →
        (∀ t : ℚ, dist c1 c2 < t → makeCIEDE2000Comparator dist t c1 c2 = true)
          ∧ (∀ t : ℚ, t < dist c1 c2 →
              makeCIEDE2000Comparator dist t c1 c2 = false)) := by
  have hiff : ∀ (dist : Color → Color → ℚ) (t : ℚ) (c1 c2 : Color),
      makeCIEDE2000Comparator dist t c1 c2 = true ↔ (c1 = c2 ∨ dist c1 c2 < t) := by
    intro dist t c1 c2
    unfold makeCIEDE2000Comparator
    cases h : areColorsSame c1 c2
    · have hne : ¬c1 = c2 := by
        intro he
        rw [← areColorsSame_iff c1 c2] at he
        simp [h] at he
      simp [hne]
    · simp [(areColorsSame_iff c1 c2).mp h]
  refine ⟨hiff, fun dist c1 c2 hne => ⟨fun t ht => ?_, fun t ht => ?_⟩⟩
  · exact (hiff dist t c1 c2).mpr (Or.inr ht)
  · rw [Bool.eq_false_iff]
    intro hc
    rcases (hiff dist t c1 c2).mp hc with h | h
    · exact hne h
    · linarith

/-- C8 witness: colors at constant distance 5 compare `true` at
tolerance 6 and `false` at tolerance 4. -/
theorem c8_witness :
    blackC ≠ redC
      ∧ makeCIEDE2000Comparator (fun _ _ => 5) 6 blackC redC = true
      ∧ makeCIEDE2000Comparator (fun _ _ => 5) 4 blackC redC = false :=
  ⟨by decide,
   (c8_perceptual_comparator.2 (fun _ _ => 5) blackC redC (by decide)).1 6
     (by norm_num),
   (c8_perceptual_comparator.2 (fun _ _ => 5) blackC redC (by decide)).2 4
     (by norm_num)⟩

/-- C10: `prepareOpts` — run by both `looksSame` and `getDiffArea` on
the caller's option object — overwrites `tolerance` (with `JND = 2.3`
when the key is absent, with its own value otherwise) and sets
`ignoreAntialiasing` to `true` when it is undefined; the option record
the operations hand back is exactly the `prepareOpts` output, i.e. the
state the caller's mutated object is left in after the call. -/
theorem c10_opts_mutation :
    (∀ o : Opts, o.tolerance = none →
        prepareOpts o
          = .ok { o with
                  tolerance := some JND
                  ignoreAntialiasing := some (o.ignoreAntialiasing.getD true) })
    ∧ (∀ (o : Opts) (t : ℚ), o.tolerance = some t → o.strict = false →
        prepareOpts o
          = .ok { o with
                  tolerance := some t
                  ignoreAntialiasing := some (o.ignoreAntialiasing.getD true) })
    ∧ (∀ (sem : CompChain → Color → Color → Bool) (o : Opts) (pair : Png × Png)
          (b : Bool) (o' : Opts),
        looksSameModel sem o pair = .ok (b, o') → prepareOpts o = .ok o')
    ∧ (∀ (sem : CompChain → Color → Color → Bool) (o : Opts) (pair : Png × Png)
          (r : Option Rect) (o' : Opts),
        getDiffAreaModel sem o pair = .ok (r, o') → prepareOpts o = .ok o') := by
  refine ⟨?_, ?_, ?_, ?_⟩
  · intro o ht
    simp [prepareOpts, getToleranceFromOpts, ht]
    cases haa : o.ignoreAntialiasing <;> simp [haa]
  · intro o t ht hs
    simp [prepareOpts, getToleranceFromOpts, ht, hs]
    cases haa : o.ignoreAntialiasing <;> simp [haa]
  · intro sem o pair b o' h
    cases hp : prepareOpts o with
    | error e => simp [looksSameModel, hp] at h
    | ok o2 =>
      simp [looksSameModel, hp] at h
      rw [h.2]
  · intro sem o pair r o' h
    cases hp : prepareOpts o with
    | error e => simp [getDiffAreaModel, hp] at h
    | ok o2 =>
      simp [getDiffAreaModel, hp] at h
      rw [h.2]

/-- C10 witness: the defaulted and the overwritten option records. -/
theorem c10_witness :
    prepareOpts ⟨none, false, none, false, 1⟩
        = .ok ⟨some JND, false, some true, false, 1⟩
      ∧ prepareOpts ⟨some 1, false, none, false, 1⟩
        = .ok ⟨some 1, false, some true, false, 1⟩ :=
  ⟨by simpa using c10_opts_mutation.1 ⟨none, false, none, false, 1⟩ rfl,
   by simpa using c10_opts_mutation.2.1 ⟨some 1, false, none, false, 1⟩ 1 rfl rfl⟩

theorem filter_diff_nil_iff (cmp : Color → Color → Bool) (first second : Png) :
    ((allCoords first.width first.height).filter
        (fun c => !(cmp (first.getPixel c.1 c.2) (second.getPixel c.1 c.2)))) = []
      ↔ ∀ x y, x < first.width → y < first.height →
          cmp (first.getPixel x y) (second.getPixel x y) = true := by
  rw [List.filter_eq_nil_iff]
  constructor
  · intro h x y hx hy
    have := h (x, y) ((mem_allCoords _ _ _ _).mpr ⟨hx, hy⟩)
    simpa using this
  · rintro h ⟨x, y⟩ hm
    have := h x y ((mem_allCoords _ _ _ _).mp hm).1 ((mem_allCoords _ _ _ _).mp hm).2
    simp [this]

/-- C6: `looksSame` answers `false` on unequal dimensions for every
comparator (so without ever invoking it on a pixel); on equal
dimensions its short-circuiting scan keeps at most one coordinate and
the answer is `true` exactly when the comparator matches every in-bounds
pixel pair. -/
theorem c6_looks_same :
    (∀ (cmp : Color → Color → Bool) (first second : Png),
        first.width ≠ second.width ∨ first.height ≠ second.height →
        looksSameCore cmp first second = false)
    ∧ (∀ (cmp : Color → Color → Bool) (first second : Png),
        first.width = second.width → first.height = second.height →
        (looksSameCore cmp first second = true ↔
          ∀ x y, x < first.width → y < first.height →
            cmp (first.getPixel x y) (second.getPixel x y) = true))
    ∧ (∀ (cmp : Color → Color → Bool) (first second : Png),
        (getDiffPixelsCoords first second cmp true).length ≤ 1) := by
  refine ⟨?_, ?_, ?_⟩
  · intro cmp first second h
    unfold looksSameCore
    rcases h with h | h <;> simp [h]
  · intro cmp first second hw hh
    have hc : (first.width != second.width || first.height != second.height)
        = false := by
      simp [hw, hh]
    unfold looksSameCore
    rw [hc]
    simp only [Bool.false_eq_true, if_false, getDiffPixelsCoords,
      eq_self_iff_true, if_true]
    rw [List.isEmpty_iff, List.take_eq_nil_iff,
      filter_diff_nil_iff cmp first second]
    exact or_iff_right (by omega)
  · intro cmp first second
    unfold getDiffPixelsCoords
    simp [List.length_take]

/-- C6 witness: unequal widths answer `false` without the comparator;
two identical 1×1 rasters answer `true`. -/
theorem c6_witness :
    looksSameCore areColorsSame png1x1 png2x1 = false
      ∧ looksSameCore areColorsSame png1x1 png1x1 = true :=
  ⟨c6_looks_same.1 areColorsSame png1x1 png2x1 (Or.inl (by decide)),
   (c6_looks_same.2.1 areColorsSame png1x1 png1x1 rfl rfl).mpr
     (fun _ _ _ _ => rfl)⟩

/-- C7: `getDiffArea` answers the origin-anchored max-extent rectangle
on unequal dimensions without scanning; `null` exactly when every
in-bounds pixel pair matches; and otherwise the bounding box with
`left`/`top` the coordinate minima and `width`/`height` spanning to the
maxima — every differing coordinate lies inside it and its `left`/`top`
edges are attained — with the concrete coordinate set
`(2,3), (2,4), (5,3)` giving `left 2, top 3, width 4, height 2`. -/
theorem c7_diff_area :
    (∀ (cmp : Color → Color → Bool) (first second : Png),
        first.width ≠ second.width ∨ first.height ≠ second.height →
        getDiffAreaCore cmp first second
          = some ⟨0, 0, max first.width second.width,
              max first.height second.height⟩)
    ∧ (∀ (cmp : Color → Color → Bool) (first second : Png),
        first.width = second.width → first.height = second.height →
        (getDiffAreaCore cmp first second = none ↔
          ∀ x y, x < first.width → y < first.height →
            cmp (first.getPixel x y) (second.getPixel x y) = true))
    ∧ getDiffArea [(2, 3), (2, 4), (5, 3)] = ⟨2, 3, 4, 2⟩
    ∧ (∀ (coords : List (Nat × Nat)) (p : Nat × Nat), p ∈ coords →
        (getDiffArea coords).left ≤ p.1
          ∧ p.1 < (getDiffArea coords).left + (getDiffArea coords).width
          ∧ (getDiffArea coords).top ≤ p.2
          ∧ p.2 < (getDiffArea coords).top + (getDiffArea coords).height)
    ∧ (∀ coords : List (Nat × Nat), coords ≠ [] →
        (∃ p ∈ coords, p.1 = (getDiffArea coords).left)
          ∧ (∃ p ∈ coords, p.2 = (getDiffArea coords).top)) := by
  refine ⟨?_, ?_, ?_, ?_, ?_⟩
  · intro cmp first second h
    unfold getDiffAreaCore
    rcases h with h | h <;> simp [h]
  · intro cmp first second hw hh
    have hc : (first.width != second.width || first.height != second.height)
        = false := by
      simp [hw, hh]
    unfold getDiffAreaCore
    rw [hc]
    simp only [Bool.false_eq_true, if_false, getDiffPixelsCoords]
    have hopt : ∀ (r : List (Nat × Nat)),
        ((if r.isEmpty = true then (none : Option Rect) else some (getDiffArea r))
            = none)
          ↔ r = [] := by
      intro r; cases r <;> simp
    rw [hopt, filter_diff_nil_iff cmp first second]
  · decide
  · intro coords p hp
    have hx1 : p.1 ∈ coords.map (fun c => c.1) :=
      List.mem_map_of_mem (fun c => c.1) hp
    have hy1 : p.2 ∈ coords.map (fun c => c.2) :=
      List.mem_map_of_mem (fun c => c.2) hp
    cases hminx : (coords.map (fun c => c.1)).min? with
    | none => rw [List.min?_eq_none_iff] at hminx; simp [hminx] at hx1
    | some mx =>
    cases hmaxx : (coords.map (fun c => c.1)).max? with
    | none => rw [List.max?_eq_none_iff] at hmaxx; simp [hmaxx] at hx1
    | some Mx =>
    cases hminy : (coords.map (fun c => c.2)).min? with
    | none => rw [List.min?_eq_none_iff] at hminy; simp [hminy] at hy1
    | some my =>
    cases hmaxy : (coords.map (fun c => c.2)).max? with
    | none => rw [List.max?_eq_none_iff] at hmaxy; simp [hmaxy] at hy1
    | some My =>
    obtain ⟨-, hmx_le⟩ := List.min?_eq_some_iff'.mp hminx
    obtain ⟨-, hMx_ge⟩ := List.max?_eq_some_iff'.mp hmaxx
    obtain ⟨-, hmy_le⟩ := List.min?_eq_some_iff'.mp hminy
    obtain ⟨-, hMy_ge⟩ := List.max?_eq_some_iff'.mp hmaxy
    have h1 := hmx_le _ hx1
    have h2 := hMx_ge _ hx1
    have h3 := hmy_le _ hy1
    have h4 := hMy_ge _ hy1
    simp only [getDiffArea, hminx, hmaxx, hminy, hmaxy, Option.getD_some]
    exact ⟨by omega, by omega, by omega, by omega⟩
  · intro coords hne
    have hxs : coords.map (fun c => c.1) ≠ [] := by
      simpa [List.map_eq_nil_iff] using hne
    have hys : coords.map (fun c => c.2) ≠ [] := by
      simpa [List.map_eq_nil_iff] using hne
    cases hminx : (coords.map (fun c => c.1)).min? with
    | none => rw [List.min?_eq_none_iff] at hminx; exact absurd hminx hxs
    | some mx =>
    cases hminy : (coords.map (fun c => c.2)).min? with
    | none => rw [List.min?_eq_none_iff] at hminy; exact absurd hminy hys
    | some my =>
    obtain ⟨hmx_mem, -⟩ := List.min?_eq_some_iff'.mp hminx
    obtain ⟨hmy_mem, -⟩ := List.min?_eq_some_iff'.mp hminy
    obtain ⟨p1, hp1, hp1e⟩ := List.mem_map.mp hmx_mem
    obtain ⟨p2, hp2, hp2e⟩ := List.mem_map.mp hmy_mem
    constructor
    · exact ⟨p1, hp1, by simp only [getDiffArea, hminx, hminy,
        Option.getD_some]; exact hp1e⟩
    · exact ⟨p2, hp2, by simp only [getDiffArea, hminx, hminy,
        Option.getD_some]; exact hp2e⟩

/-- C7 witness: the dimension-mismatch rectangle for 1×1 versus 2×1, the
`null` answer on identical rasters, and the bounding-box containment at
a concrete coordinate of the concrete set. -/
theorem c7_witness :
    getDiffAreaCore areColorsSame png1x1 png2x1 = some ⟨0, 0, 2, 1⟩
      ∧ getDiffAreaCore areColorsSame png1x1 png1x1 = none
      ∧ ((getDiffArea [(2, 3), (2, 4), (5, 3)]).left ≤ 5
          ∧ 5 < (getDiffArea [(2, 3), (2, 4), (5, 3)]).left
              + (getDiffArea [(2, 3), (2, 4), (5, 3)]).width
          ∧ (getDiffArea [(2, 3), (2, 4), (5, 3)]).top ≤ 3
          ∧ 3 < (getDiffArea [(2, 3), (2, 4), (5, 3)]).top
              + (getDiffArea [(2, 3), (2, 4), (5, 3)]).height) :=
  ⟨c7_diff_area.1 areColorsSame png1x1 png2x1 (Or.inl (by decide)),
   (c7_diff_area.2.1 areColorsSame png1x1 png1x1 rfl rfl).mpr
     (fun _ _ _ _ => rfl),
   c7_diff_area.2.2.2.1 [(2, 3), (2, 4), (5, 3)] (5, 3) (by decide)⟩

end LooksSame
